import Mathlib

/-!
Shallow embedding of `src/glib.c` (GValue marshalling, Lua GClosure bridge,
GLib log bridge of the lgi Lua/GObject binding) and proofs of the spec claims.

Lua values are modelled as an inductive type; Lua numbers are modelled as
rationals (the idealised number line of `lua_Number`).  Lua errors raised via
`luaL_error`/`luaL_typerror` are modelled with `Except String`: these C
functions `longjmp` and never return, which the `Except` bind reproduces
exactly (nothing after a raise executes).
-/

namespace Lgi

/-- Lua runtime values (the scripting-level value domain). -/
inductive LuaValue where
  | vnil
  | vbool (b : Bool)
  | vnum (q : ℚ)
  | vstr (s : String)
  | vtable (id : Nat)
  | vfunction (id : Nat)
  | vuserdata (id : Nat)
  | vthread (id : Nat)
deriving DecidableEq, Repr

/-- The Lua value stack, top element first. -/
abbrev LuaState := List LuaValue

/-- Lua type tags as returned by `lua_type`. -/
inductive LuaType where
  | tnil
  | tboolean
  | tnumber
  | tstring
  | ttable
  | tfunction
  | tuserdata
  | tthread
deriving DecidableEq, Repr

/-- Type of a Lua value (`lua_type`). -/
def luaTypeOf : LuaValue → LuaType
  | .vnil => .tnil
  | .vbool _ => .tboolean
  | .vnum _ => .tnumber
  | .vstr _ => .tstring
  | .vtable _ => .ttable
  | .vfunction _ => .tfunction
  | .vuserdata _ => .tuserdata
  | .vthread _ => .tthread

/-- Lua truthiness (`lua_toboolean`): everything except nil and false is true. -/
def lua_toboolean : LuaValue → Bool
  | .vnil => false
  | .vbool b => b
  | _ => true

/-- Modelled from the spec: the closed primitive-type table of `decltype.h`
(the header itself is not among the sources under study; spec section 4.1
describes it as a closed static table mapping each primitive tag — boolean,
integer widths, float widths, string — to one fixed concrete GLib type). -/
inductive PrimType where
  | pBoolean
  | pInt8
  | pUInt8
  | pInt16
  | pUInt16
  | pInt32
  | pUInt32
  | pInt64
  | pUInt64
  | pFloat
  | pDouble
  | pUtf8
  | pFilename
deriving DecidableEq, Repr

/-- GLib runtime types (`GType`), as far as the marshaller distinguishes them:
the "no value" type `G_TYPE_NONE`, the primitive types of the `decltype.h`
table, and value-bearing types classified by their fundamental kind
(enum, flags, object, boxed, or some other fundamental the marshaller has no
case for, e.g. `G_TYPE_PARAM`/`G_TYPE_POINTER`). -/
inductive GType where
  | gNone
  | gPrim (p : PrimType)
  | gEnum (id : Nat)
  | gFlags (id : Nat)
  | gObject (id : Nat)
  | gBoxed (id : Nat)
  | gOther (id : Nat)
deriving DecidableEq, Repr

/-- `G_TYPE_IS_VALUE`: whether the type can hold a value.  `G_TYPE_NONE` is
the one non-value-bearing type the marshaller can meet. -/
def GType.isValue : GType → Bool
  | .gNone => false
  | _ => true

/-- Printable name of a primitive type (for `g_type_name` in error texts). -/
def primName : PrimType → String
  | .pBoolean => "gboolean"
  | .pInt8 => "gchar"
  | .pUInt8 => "guchar"
  | .pInt16 => "gint16"
  | .pUInt16 => "guint16"
  | .pInt32 => "gint"
  | .pUInt32 => "guint"
  | .pInt64 => "gint64"
  | .pUInt64 => "guint64"
  | .pFloat => "gfloat"
  | .pDouble => "gdouble"
  | .pUtf8 => "gchararray"
  | .pFilename => "gchararray"

/-- `g_type_name` of a type, for error messages. -/
def GType.name : GType → String
  | .gNone => "void"
  | .gPrim p => primName p
  | .gEnum id => "enum" ++ toString id
  | .gFlags id => "flags" ++ toString id
  | .gObject id => "object" ++ toString id
  | .gBoxed id => "boxed" ++ toString id
  | .gOther id => "other" ++ toString id

/-- `g_type_name (G_TYPE_FUNDAMENTAL type)`, for error messages. -/
def GType.fundamentalName : GType → String
  | .gNone => "void"
  | .gPrim p => primName p
  | .gEnum _ => "GEnum"
  | .gFlags _ => "GFlags"
  | .gObject _ => "GObject"
  | .gBoxed _ => "GBoxed"
  | .gOther _ => "GParam"

/-- Payload of a `GValue`: one scalar, string or pointer slot. -/
inductive GValueData where
  | dNone
  | dBool (b : Bool)
  | dInt (n : ℤ)
  | dNum (q : ℚ)
  | dStr (s : String)
  | dPtr (p : Option Nat)
deriving DecidableEq, Repr

/-- A `GValue`: a runtime type identity plus storage for one value. -/
structure GValue where
  gtype : GType
  data : GValueData
deriving DecidableEq, Repr

/-- Zero-initialised payload for a type (`g_value_init` zeroes the storage). -/
def zeroData : GType → GValueData
  | .gNone => .dNone
  | .gPrim .pBoolean => .dBool false
  | .gPrim .pFloat => .dNum 0
  | .gPrim .pDouble => .dNum 0
  | .gPrim .pUtf8 => .dStr ""
  | .gPrim .pFilename => .dStr ""
  | .gPrim _ => .dInt 0
  | .gEnum _ => .dInt 0
  | .gFlags _ => .dInt 0
  | .gObject _ => .dPtr none
  | .gBoxed _ => .dPtr none
  | .gOther _ => .dNone

/-- An interface descriptor as obtained by `g_type_info_get_interface`:
either a registered type (carrying its `GType`) or an unregistered one,
carrying only its `g_base_info_get_type` classification code. -/
structure GIInterfaceInfo where
  registered : Option GType
  infoType : ℤ
deriving DecidableEq, Repr

/-- A `GITypeInfo`, reduced to its tag (`g_type_info_get_tag`) plus, for the
INTERFACE tag, the interface descriptor. -/
inductive GITypeInfo where
  | void
  | boolean
  | int8
  | uint8
  | int16
  | uint16
  | int32
  | uint32
  | int64
  | uint64
  | float
  | double
  | gtype
  | utf8
  | filename
  | array
  | interface (ii : GIInterfaceInfo)
  | glist
  | gslist
  | ghash
  | gerror
deriving DecidableEq, Repr

/-- Numeric value of a `GITypeTag` (the `GI_TYPE_TAG_*` enumeration). -/
def GITypeInfo.tagCode : GITypeInfo → Nat
  | .void => 0
  | .boolean => 1
  | .int8 => 2
  | .uint8 => 3
  | .int16 => 4
  | .uint16 => 5
  | .int32 => 6
  | .uint32 => 7
  | .int64 => 8
  | .uint64 => 9
  | .float => 10
  | .double => 11
  | .gtype => 12
  | .utf8 => 13
  | .filename => 14
  | .array => 15
  | .interface _ => 16
  | .glist => 17
  | .gslist => 18
  | .ghash => 19
  | .gerror => 20

/-- Modelled from the spec: which tags the `DECLTYPE` rows of the (missing)
`decltype.h` header cover, per spec section 4.1 — the primitive tags each map
to one fixed concrete type; array and other structured tags are not covered
(the source itself carries the comment "TODO: Handle arrays").  The GTYPE tag
is not mentioned by the spec and is routed to the default branch; no claim
depends on it. -/
def tagPrim : GITypeInfo → Option PrimType
  | .boolean => some .pBoolean
  | .int8 => some .pInt8
  | .uint8 => some .pUInt8
  | .int16 => some .pInt16
  | .uint16 => some .pUInt16
  | .int32 => some .pInt32
  | .uint32 => some .pUInt32
  | .int64 => some .pInt64
  | .uint64 => some .pUInt64
  | .float => some .pFloat
  | .double => some .pDouble
  | .utf8 => some .pUtf8
  | .filename => some .pFilename
  | _ => none

/-- `lgi_value_init` (glib.c lines 14-53): initialise a `GValue` for a
metadata type.  VOID initialises to `G_TYPE_NONE`; primitive tags initialise
to their fixed concrete type; INTERFACE resolves the interface descriptor
(raising on an unregistered one, with the descriptor's classification code in
the message); every other tag raises `value_init: bad ti.tag=<tag>`. -/
def lgi_value_init (ti : GITypeInfo) : Except String GValue :=
  match ti with
  | .void => .ok ⟨.gNone, .dNone⟩
  | .interface ii =>
    match ii.registered with
    | some t => .ok ⟨t, zeroData t⟩
    | none => .error ("value_init: bad ti.iface.type=" ++ toString ii.infoType)
  | t =>
    match tagPrim t with
    | some p => .ok ⟨.gPrim p, zeroData (.gPrim p)⟩
    | none => .error ("value_init: bad ti.tag=" ++ toString t.tagCode)

/-- Truncation toward zero of a rational to an integer, as the C conversion
from `lua_Number` to an integral type behaves. -/
def ratTrunc (q : ℚ) : ℤ :=
  if q < 0 then Int.ceil q else Int.floor q

/-- `luaL_checkinteger`: the argument must be a number; it is converted to an
integer by truncation. -/
def luaL_checkinteger (v : LuaValue) : Except String ℤ :=
  match v with
  | .vnum q => .ok (ratTrunc q)
  | _ => .error "number expected"

/-- `luaL_checknumber`: the argument must be a number. -/
def luaL_checknumber (v : LuaValue) : Except String ℚ :=
  match v with
  | .vnum q => .ok q
  | _ => .error "number expected"

/-- `luaL_checkstring`: the argument must be a string. -/
def luaL_checkstring (v : LuaValue) : Except String String :=
  match v with
  | .vstr s => .ok s
  | _ => .error "string expected"

/-- Reduction of a signed C integer store of width `w` (two's complement). -/
def wrapS (w : Nat) (n : ℤ) : ℤ :=
  (n + 2 ^ (w - 1)) % 2 ^ w - 2 ^ (w - 1)

/-- Reduction of an unsigned C integer store of width `w`. -/
def wrapU (w : Nat) (n : ℤ) : ℤ :=
  n % 2 ^ w

/-- Modelled from the spec: the per-row `check`-and-`val_set` step of the
`DECLTYPE` table used by `lgi_value_load` (the header is missing from the
sources; spec section 4.2 describes it as a type-specific
conversion-and-validate step, e.g. a numeric check or a string check, written
into the box).  Integer stores reduce modulo the row's width; the float rows
are idealised as exact rational storage, which agrees with the C code on every
value of the C type's own domain. -/
def primCheck (p : PrimType) (v : LuaValue) : Except String GValueData :=
  match p with
  | .pBoolean => .ok (.dBool (lua_toboolean v))
  | .pInt8 => (luaL_checkinteger v).map (fun n => .dInt (wrapS 8 n))
  | .pUInt8 => (luaL_checkinteger v).map (fun n => .dInt (wrapU 8 n))
  | .pInt16 => (luaL_checkinteger v).map (fun n => .dInt (wrapS 16 n))
  | .pUInt16 => (luaL_checkinteger v).map (fun n => .dInt (wrapU 16 n))
  | .pInt32 => (luaL_checkinteger v).map (fun n => .dInt (wrapS 32 n))
  | .pUInt32 => (luaL_checkinteger v).map (fun n => .dInt (wrapU 32 n))
  | .pInt64 => (luaL_checkinteger v).map (fun n => .dInt (wrapS 64 n))
  | .pUInt64 => (luaL_checkinteger v).map (fun n => .dInt (wrapU 64 n))
  | .pFloat => (luaL_checknumber v).map (fun q => .dNum q)
  | .pDouble => (luaL_checknumber v).map (fun q => .dNum q)
  | .pUtf8 => (luaL_checkstring v).map (fun s => .dStr s)
  | .pFilename => (luaL_checkstring v).map (fun s => .dStr s)

/-- Modelled from the spec: the per-row `val_get`-and-`push` step of the
`DECLTYPE` table used by `lgi_value_store`: the stored payload is pushed back
as the corresponding Lua value. -/
def primPush (p : PrimType) (d : GValueData) : LuaValue :=
  match p, d with
  | .pBoolean, .dBool b => .vbool b
  | .pInt8, .dInt n => .vnum (n : ℚ)
  | .pUInt8, .dInt n => .vnum (n : ℚ)
  | .pInt16, .dInt n => .vnum (n : ℚ)
  | .pUInt16, .dInt n => .vnum (n : ℚ)
  | .pInt32, .dInt n => .vnum (n : ℚ)
  | .pUInt32, .dInt n => .vnum (n : ℚ)
  | .pInt64, .dInt n => .vnum (n : ℚ)
  | .pUInt64, .dInt n => .vnum (n : ℚ)
  | .pFloat, .dNum q => .vnum q
  | .pDouble, .dNum q => .vnum q
  | .pUtf8, .dStr s => .vstr s
  | .pFilename, .dStr s => .vstr s
  | _, _ => .vnil

/-- Modelled from the spec: `lgi_compound_get`, the external compound
wrapper's unwrap operation (spec section 6): a scripting-level handle yields
the wrapped native pointer plus the count of extra stack values it pushed
(popped again right after by the caller, so the net stack effect is zero). -/
def lgi_compound_get (v : LuaValue) : Except String (Nat × Nat) :=
  match v with
  | .vuserdata id => .ok (id, 0)
  | _ => .error "compound expected"

/-- `lgi_value_load` (glib.c lines 55-108): convert one Lua value into an
initialised `GValue`.  Returns the updated box, the count of consumed values
(`0` when the box's type is not value-bearing, else `1`), and the value stack
(net unchanged on every path).  Dispatch: the non-value check first, then the
exact concrete-type rows of the `DECLTYPE` table, then the fundamental-kind
switch (enum, flags, object, boxed), and finally the generic
`g_value_set: no handling` error. -/
def lgi_value_load (s : LuaState) (val : GValue) (v : LuaValue) :
    Except String (GValue × Nat × LuaState) :=
  if val.gtype.isValue = false then .ok (val, 0, s) else
  match val.gtype with
  | .gNone => .ok (val, 0, s)
  | .gPrim p =>
    match primCheck p v with
    | .ok d => .ok ({ val with data := d }, 1, s)
    | .error e => .error e
  | .gEnum _ =>
    match luaL_checkinteger v with
    | .ok n => .ok ({ val with data := .dInt n }, 1, s)
    | .error e => .error e
  | .gFlags _ =>
    match luaL_checkinteger v with
    | .ok n => .ok ({ val with data := .dInt n }, 1, s)
    | .error e => .error e
  | .gObject _ =>
    match lgi_compound_get v with
    | .ok (ptr, _) => .ok ({ val with data := .dPtr (some ptr) }, 1, s)
    | .error e => .error e
  | .gBoxed _ =>
    match lgi_compound_get v with
    | .ok (ptr, _) => .ok ({ val with data := .dPtr (some ptr) }, 1, s)
    | .error e => .error e
  | .gOther _ =>
    .error ("g_value_set: no handling of " ++ val.gtype.name ++ "(" ++
      val.gtype.fundamentalName ++ "))")

/-- Integer payload of a box (`g_value_get_enum` / `g_value_get_flags`). -/
def dataInt : GValueData → ℤ
  | .dInt n => n
  | _ => 0

/-- Pointer payload of a box (`g_value_dup_object` / `g_value_dup_boxed`,
the duplicated reference of the held pointer). -/
def dataPtr : GValueData → Option Nat
  | .dPtr p => p
  | _ => none

/-- A `GIBaseInfo` as found by `g_irepository_find_by_gtype`; the store path
only asks whether it is an object info (`GI_IS_OBJECT_INFO`). -/
structure GIBaseInfo where
  isObject : Bool
deriving DecidableEq, Repr

/-- The introspection repository, reduced to `g_irepository_find_by_gtype`
on the numeric ids of object/boxed types. -/
structure Repo where
  find : Nat → Option GIBaseInfo

/-- `lgi_value_store` (glib.c lines 110-159): convert a `GValue` into Lua
values pushed on the stack, returning the produced count and the new stack.
Non-value types produce `0` and leave everything untouched; primitives push
their payload; enum/flags push the ordinal as an integer; object/boxed types
look the concrete type up in the repository, duplicate the held reference and
wrap it as a compound handle (modelled from the spec, section 6: `wrap`
produces one owned scripting-level handle); everything else raises the generic
`g_value_get: no handling` error. -/
def lgi_value_store (repo : Repo) (s : LuaState) (val : GValue) :
    Except String (Nat × LuaState) :=
  if val.gtype.isValue = false then .ok (0, s) else
  match val.gtype with
  | .gNone => .ok (0, s)
  | .gPrim p => .ok (1, primPush p val.data :: s)
  | .gEnum _ => .ok (1, .vnum (dataInt val.data : ℚ) :: s)
  | .gFlags _ => .ok (1, .vnum (dataInt val.data : ℚ) :: s)
  | .gObject id =>
    match repo.find id with
    | some _ => .ok (1, .vuserdata ((dataPtr val.data).getD 0) :: s)
    | none =>
      .error ("g_value_get: no handling or  " ++ val.gtype.name ++ "(" ++
        val.gtype.fundamentalName ++ ")")
  | .gBoxed id =>
    match repo.find id with
    | some _ => .ok (1, .vuserdata ((dataPtr val.data).getD 0) :: s)
    | none =>
      .error ("g_value_get: no handling or  " ++ val.gtype.name ++ "(" ++
        val.gtype.fundamentalName ++ ")")
  | .gOther _ =>
    .error ("g_value_get: no handling or  " ++ val.gtype.name ++ "(" ++
      val.gtype.fundamentalName ++ ")")

/-- The Lua registry (`LUA_REGISTRYINDEX` table) as used through
`luaL_ref`/`luaL_unref`: a growable slot table pinning Lua values. -/
structure Reg where
  slots : List LuaValue
deriving DecidableEq, Repr

/-- Read a registry slot (`lua_rawgeti (L, LUA_REGISTRYINDEX, i)`). -/
def Reg.get (r : Reg) (i : Nat) : LuaValue :=
  r.slots.getD i .vnil

/-- `luaL_ref`: pin a value in a fresh registry slot, returning its index. -/
def luaL_ref (r : Reg) (v : LuaValue) : Nat × Reg :=
  (r.slots.length, ⟨r.slots ++ [v]⟩)

/-- `luaL_unref`: release a registry slot. -/
def luaL_unref (r : Reg) (i : Nat) : Reg :=
  ⟨r.slots.set i .vnil⟩

/-- The private fields of an `LgiClosure` plus the native `GClosure` header
state the bridge manipulates (marshal function, finalize notifier, reference
count with the floating flag of a freshly allocated closure). -/
structure LgiClosure where
  thread_ref : Nat
  target_ref : Nat
  refcount : Nat
  floating : Bool
  hasMarshal : Bool
  hasFinalizeNotifier : Bool
deriving DecidableEq, Repr

/-- `g_closure_new_simple`: a fresh closure with one floating reference and
no marshal function or notifier yet. -/
def g_closure_new_simple : LgiClosure :=
  ⟨0, 0, 1, true, false, false⟩

/-- `g_closure_ref`. -/
def g_closure_ref (c : LgiClosure) : LgiClosure :=
  { c with refcount := c.refcount + 1 }

/-- `g_closure_sink`: drop the floating flag, consuming one reference. -/
def g_closure_sink (c : LgiClosure) : LgiClosure :=
  if c.floating then { c with floating := false, refcount := c.refcount - 1 } else c

/-- `g_closure_set_marshal`. -/
def g_closure_set_marshal (c : LgiClosure) : LgiClosure :=
  { c with hasMarshal := true }

/-- `g_closure_add_finalize_notifier`. -/
def g_closure_add_finalize_notifier (c : LgiClosure) : LgiClosure :=
  { c with hasFinalizeNotifier := true }

/-- `lgi_closure_finalize` (glib.c lines 173-179): release both pinned
registry slots of the closure. -/
def lgi_closure_finalize (reg : Reg) (c : LgiClosure) : Reg :=
  luaL_unref (luaL_unref reg c.thread_ref) c.target_ref

/-- `luaL_typerror`: raises a Lua error describing the expected type; like
every raise it never returns to the caller. -/
def luaL_typerror (expected : String) (got : LuaType) : Except String Unit :=
  .error (expected ++ " expected, got " ++ toString (repr got))

/-- `lgi_gclosure_create` (glib.c lines 206-241): wrap a Lua callable as a
native closure.  The C function returns `GClosure *`; the model makes the
possible `NULL` result explicit as `Option`.  A target that is not a
function, table or userdata hits `luaL_typerror`, which raises and never
returns — the literal `return NULL` after it is kept in the model as the
dead continuation of the raise.  On a valid target the current thread and the
target are pinned in the registry, the marshaller and finalize notifier are
installed, and the floating reference is converted into a normal one. -/
def lgi_gclosure_create (reg : Reg) (thread : LuaValue) (target : LuaValue) :
    Except String (Option (LgiClosure × Reg)) :=
  if luaTypeOf target ≠ .tfunction ∧ luaTypeOf target ≠ .ttable ∧
      luaTypeOf target ≠ .tuserdata then
    match luaL_typerror "function" (luaTypeOf target) with
    | .error e => .error e
    | .ok _ => .ok none
  else
    let c0 := g_closure_new_simple
    let tr := luaL_ref reg thread
    let gr := luaL_ref tr.2 target
    let c1 := { c0 with thread_ref := tr.1, target_ref := gr.1 }
    let c2 := g_closure_add_finalize_notifier (g_closure_set_marshal c1)
    .ok (some (g_closure_sink (g_closure_ref c2), gr.2))

/-- Push the parameter boxes in order (the `while (n_param_values--)` loop of
`lgi_gclosure_marshal`), accumulating the running count of produced values. -/
def pushParams (repo : Repo) (s : LuaState) : List GValue → Except String (Nat × LuaState)
  | [] => .ok (0, s)
  | p :: ps =>
    match lgi_value_store repo s p with
    | .error e => .error e
    | .ok (n, s1) =>
      match pushParams repo s1 ps with
      | .error e => .error e
      | .ok (m, s2) => .ok (n + m, s2)

/-- Behaviour of `lua_pcall` on a pushed callable: the semantics of calling a
Lua value on an argument list, either a single result or a raised error. -/
abbrev CallSem := LuaValue → List LuaValue → Except String LuaValue

/-- The tail of `lgi_gclosure_marshal` after parameter marshalling: the
`lua_pcall` on the pinned target with the pushed arguments; on success the
single result is loaded into the return box, on failure (`res` nonzero)
nothing happens — the return box and the registry are left as they were and
no error escapes to the native caller. -/
def marshalInvoke (call : CallSem) (reg : Reg) (c : LgiClosure)
    (return_value : GValue) (args : List LuaValue) : Except String (GValue × Reg) :=
  match call (reg.get c.target_ref) args with
  | .error _ => .ok (return_value, reg)
  | .ok r =>
    match lgi_value_load [r] return_value r with
    | .error e => .error e
    | .ok (rv, _, _) => .ok (rv, reg)

/-- `lgi_gclosure_marshal` (glib.c lines 181-204): fetch the pinned target,
push every parameter box through `lgi_value_store`, and invoke the callable
with exactly the accumulated number of produced values (the top `vals` stack
entries, in push order). -/
def lgi_gclosure_marshal (call : CallSem) (repo : Repo) (reg : Reg)
    (c : LgiClosure) (return_value : GValue) (param_values : List GValue) :
    Except String (GValue × Reg) :=
  match pushParams repo [] param_values with
  | .error e => .error e
  | .ok (vals, s) => marshalInvoke call reg c return_value ((s.take vals).reverse)

/-- `G_LOG_FLAG_FATAL`. -/
def G_LOG_FLAG_FATAL : Nat := 2

/-- `G_LOG_LEVEL_ERROR`. -/
def G_LOG_LEVEL_ERROR : Nat := 4

/-- `G_LOG_LEVEL_CRITICAL`. -/
def G_LOG_LEVEL_CRITICAL : Nat := 8

/-- `G_LOG_LEVEL_WARNING`. -/
def G_LOG_LEVEL_WARNING : Nat := 16

/-- `G_LOG_LEVEL_MESSAGE`. -/
def G_LOG_LEVEL_MESSAGE : Nat := 32

/-- `G_LOG_LEVEL_INFO`. -/
def G_LOG_LEVEL_INFO : Nat := 64

/-- `G_LOG_LEVEL_DEBUG`. -/
def G_LOG_LEVEL_DEBUG : Nat := 128

/-- The `log_levels` table (glib.c lines 243-245), without the terminating
NULL of the C array. -/
def log_levels : List String :=
  ["ERROR", "CRITICAL", "WARNING", "MESSAGE", "INFO", "DEBUG", "???"]

/-- The severity-scan loop of `log_handler` (glib.c lines 266-271), unrolled:
`level_bit` runs from `G_LOG_LEVEL_ERROR` to `G_LOG_LEVEL_DEBUG` doubling each
step, `level` walks the table in step; the first set bit stops the scan, and
an exhausted scan leaves `level` on the sentinel entry (index 6). -/
def levelIndex (log_level : Nat) : Nat :=
  if log_level &&& G_LOG_LEVEL_ERROR ≠ 0 then 0
  else if log_level &&& G_LOG_LEVEL_CRITICAL ≠ 0 then 1
  else if log_level &&& G_LOG_LEVEL_WARNING ≠ 0 then 2
  else if log_level &&& G_LOG_LEVEL_MESSAGE ≠ 0 then 3
  else if log_level &&& G_LOG_LEVEL_INFO ≠ 0 then 4
  else if log_level &&& G_LOG_LEVEL_DEBUG ≠ 0 then 5
  else 6

/-- The severity name `*level` selected by the scan loop. -/
def levelName (log_level : Nat) : String :=
  log_levels.getD (levelIndex log_level) "???"

/-- Outcome of the `lua_pcall` on the custom Lua log handler: normal return
(`0`), a runtime error (`LUA_ERRRUN`), or any other failure code (the
`default` branch of the switch). -/
inductive PcallResult where
  | ok (v : LuaValue)
  | errrun
  | other
deriving DecidableEq, Repr

/-- Behaviour of the optional custom Lua log handler registered in the
`LGI_REG_LOG_HANDLER` registry slot, as a function of the three pushed
arguments (domain, severity name, message). -/
abbrev LogHandlerFn := String → String → String → PcallResult

/-- Observable effects of one `log_handler` run, in order: a Lua error raised
by `luaL_error` (which never returns, so it is always the last effect), or the
forward to `g_log_default_handler`. -/
inductive LogEffect where
  | luaError (msg : String)
  | defaultHandler (domain : String) (log_level : Nat) (message : String)
deriving DecidableEq, Repr

/-- `log_handler` (glib.c lines 257-309): map the level bitmask to a severity
name; invoke the custom Lua handler if one is registered (a truthy normal
return marks the event handled, a runtime error forces a throw, any other
pcall failure does neither); then, if a throw was forced or the event has the
fatal flag or the ERROR bit, raise `"<domain>-<SEVERITY> **: <message>"` via
`luaL_error` — which never returns; only otherwise, if the event was not
handled, forward it to `g_log_default_handler`. -/
def log_handler (handler : Option LogHandlerFn) (log_domain : String)
    (log_level : Nat) (message : String) : List LogEffect :=
  let level := levelName log_level
  let outcome :=
    match handler with
    | none => (false, false)
    | some h =>
      match h log_domain level message with
      | .ok v => (lua_toboolean v, false)
      | .errrun => (false, true)
      | .other => (false, false)
  if outcome.2 || (log_level &&& (G_LOG_FLAG_FATAL ||| G_LOG_LEVEL_ERROR)) ≠ 0 then
    [.luaError (log_domain ++ "-" ++ level ++ " **: " ++ message)]
  else if outcome.1 = false then
    [.defaultHandler log_domain log_level message]
  else
    []

/-- Index of a string in a NULL-terminated option list, as `luaL_checkoption`
scans it. -/
def optIndex (s : String) : List String → Option Nat
  | [] => none
  | t :: ts => if t == s then some 0 else (optIndex s ts).map (· + 1)

/-- `luaL_checkoption` with a non-NULL default: a nil or absent argument
selects the default string; a string argument must occur in the option list,
anything else is a usage error. -/
def luaL_checkoption (v : LuaValue) (dflt : String) (lst : List String) :
    Except String Nat :=
  match v with
  | .vnil =>
    match optIndex dflt lst with
    | some i => .ok i
    | none => .error ("invalid option " ++ dflt)
  | .vstr s =>
    match optIndex s lst with
    | some i => .ok i
    | none => .error ("invalid option " ++ s)
  | _ => .error "string expected"

/-- `lgi_glib_log` (glib.c lines 247-255): the Lua-callable log entry point.
Checks the domain string, resolves the level option against the `log_levels`
array (default `log_levels[5]`, i.e. DEBUG) into the bitmask
`1 << (index + 2)`, checks the message string, and emits the native log
event, modelled as the `(domain, level, message)` triple handed to `g_log`. -/
def lgi_glib_log (domain : LuaValue) (level : LuaValue) (message : LuaValue) :
    Except String (String × Nat × String) :=
  match luaL_checkstring domain with
  | .error e => .error e
  | .ok d =>
    match luaL_checkoption level (log_levels.getD 5 "") log_levels with
    | .error e => .error e
    | .ok i =>
      match luaL_checkstring message with
      | .error e => .error e
      | .ok m => .ok (d, 1 <<< (i + 2), m)

lemma optIndex_eq_none (s : String) : ∀ l : List String, s ∉ l → optIndex s l = none := by
  intro l
  induction l with
  | nil => intro _; rfl
  | cons t ts ih =>
    intro h
    rw [List.mem_cons, not_or] at h
    have ht : (t == s) = false := beq_eq_false_iff_ne.mpr (Ne.symm h.1)
    simp [optIndex, ht, ih h.2]

/-- C5: `on_log_event` maps the level bitmask to the lowest matching severity
name scanning the fixed descending table ERROR, CRITICAL, WARNING, MESSAGE,
INFO, DEBUG; the ERROR bit maps to "ERROR", a bitmask matching none of the six
levels maps to the sentinel "???", and in general the first set bit in the
scan order selects the table entry of the same index. -/
theorem log_severity_mapping :
    (∀ l : Nat, l &&& G_LOG_LEVEL_ERROR ≠ 0 → levelName l = "ERROR") ∧
    (∀ l : Nat, l &&& G_LOG_LEVEL_ERROR = 0 → l &&& G_LOG_LEVEL_CRITICAL = 0 →
      l &&& G_LOG_LEVEL_WARNING = 0 → l &&& G_LOG_LEVEL_MESSAGE = 0 →
      l &&& G_LOG_LEVEL_INFO = 0 → l &&& G_LOG_LEVEL_DEBUG = 0 →
      levelName l = "???") ∧
    (∀ l i : Nat, i < 6 → l &&& (G_LOG_LEVEL_ERROR <<< i) ≠ 0 →
      (∀ j, j < i → l &&& (G_LOG_LEVEL_ERROR <<< j) = 0) →
      levelName l = log_levels.getD i "???") := by
  refine ⟨?_, ?_, ?_⟩
  · intro l h
    simp [levelName, levelIndex, h, log_levels]
  · intro l h0 h1 h2 h3 h4 h5
    simp [levelName, levelIndex, h0, h1, h2, h3, h4, h5, log_levels]
  · intro l i hi hbit hlow
    interval_cases i
    · rw [(by decide : G_LOG_LEVEL_ERROR <<< 0 = G_LOG_LEVEL_ERROR)] at hbit
      simp [levelName, levelIndex, hbit]
    · rw [(by decide : G_LOG_LEVEL_ERROR <<< 1 = G_LOG_LEVEL_CRITICAL)] at hbit
      have h0 := hlow 0 (by norm_num)
      rw [(by decide : G_LOG_LEVEL_ERROR <<< 0 = G_LOG_LEVEL_ERROR)] at h0
      simp [levelName, levelIndex, h0, hbit]
    · rw [(by decide : G_LOG_LEVEL_ERROR <<< 2 = G_LOG_LEVEL_WARNING)] at hbit
      have h0 := hlow 0 (by norm_num)
      rw [(by decide : G_LOG_LEVEL_ERROR <<< 0 = G_LOG_LEVEL_ERROR)] at h0
      have h1 := hlow 1 (by norm_num)
      rw [(by decide : G_LOG_LEVEL_ERROR <<< 1 = G_LOG_LEVEL_CRITICAL)] at h1
      simp [levelName, levelIndex, h0, h1, hbit]
    · rw [(by decide : G_LOG_LEVEL_ERROR <<< 3 = G_LOG_LEVEL_MESSAGE)] at hbit
      have h0 := hlow 0 (by norm_num)
      rw [(by decide : G_LOG_LEVEL_ERROR <<< 0 = G_LOG_LEVEL_ERROR)] at h0
      have h1 := hlow 1 (by norm_num)
      rw [(by decide : G_LOG_LEVEL_ERROR <<< 1 = G_LOG_LEVEL_CRITICAL)] at h1
      have h2 := hlow 2 (by norm_num)
      rw [(by decide : G_LOG_LEVEL_ERROR <<< 2 = G_LOG_LEVEL_WARNING)] at h2
      simp [levelName, levelIndex, h0, h1, h2, hbit]
    · rw [(by decide : G_LOG_LEVEL_ERROR <<< 4 = G_LOG_LEVEL_INFO)] at hbit
      have h0 := hlow 0 (by norm_num)
      rw [(by decide : G_LOG_LEVEL_ERROR <<< 0 = G_LOG_LEVEL_ERROR)] at h0
      have h1 := hlow 1 (by norm_num)
      rw [(by decide : G_LOG_LEVEL_ERROR <<< 1 = G_LOG_LEVEL_CRITICAL)] at h1
      have h2 := hlow 2 (by norm_num)
      rw [(by decide : G_LOG_LEVEL_ERROR <<< 2 = G_LOG_LEVEL_WARNING)] at h2
      have h3 := hlow 3 (by norm_num)
      rw [(by decide : G_LOG_LEVEL_ERROR <<< 3 = G_LOG_LEVEL_MESSAGE)] at h3
      simp [levelName, levelIndex, h0, h1, h2, h3, hbit]
    · rw [(by decide : G_LOG_LEVEL_ERROR <<< 5 = G_LOG_LEVEL_DEBUG)] at hbit
      have h0 := hlow 0 (by norm_num)
      rw [(by decide : G_LOG_LEVEL_ERROR <<< 0 = G_LOG_LEVEL_ERROR)] at h0
      have h1 := hlow 1 (by norm_num)
      rw [(by decide : G_LOG_LEVEL_ERROR <<< 1 = G_LOG_LEVEL_CRITICAL)] at h1
      have h2 := hlow 2 (by norm_num)
      rw [(by decide : G_LOG_LEVEL_ERROR <<< 2 = G_LOG_LEVEL_WARNING)] at h2
      have h3 := hlow 3 (by norm_num)
      rw [(by decide : G_LOG_LEVEL_ERROR <<< 3 = G_LOG_LEVEL_MESSAGE)] at h3
      have h4 := hlow 4 (by norm_num)
      rw [(by decide : G_LOG_LEVEL_ERROR <<< 4 = G_LOG_LEVEL_INFO)] at h4
      simp [levelName, levelIndex, h0, h1, h2, h3, h4, hbit]

/-- C5 witness: the ERROR bit maps to "ERROR", bit 2 (fatal flag only) maps
to "???", and WARNING|DEBUG maps to the WARNING table entry. -/
theorem log_severity_mapping_wit :
    levelName G_LOG_LEVEL_ERROR = "ERROR" ∧ levelName 2 = "???" ∧
    levelName (G_LOG_LEVEL_WARNING ||| G_LOG_LEVEL_DEBUG) = log_levels.getD 2 "???" :=
  ⟨log_severity_mapping.1 G_LOG_LEVEL_ERROR (by decide),
   log_severity_mapping.2.1 2 (by decide) (by decide) (by decide) (by decide)
     (by decide) (by decide),
   log_severity_mapping.2.2 (G_LOG_LEVEL_WARNING ||| G_LOG_LEVEL_DEBUG) 2
     (by norm_num) (by decide) (by decide)⟩

/-- C1 counterexample: an ERROR-severity event with no custom handler raises
the formatted Lua error, but the forward to the native default log handler
does not happen — `luaL_error` never returns, so line 307 of glib.c is not
reached for such events.  The claim's conjunction (raise AND forward) is
false at this input. -/
theorem log_error_forward_cex :
    log_handler none "app" G_LOG_LEVEL_ERROR "low memory" =
      [.luaError "app-ERROR **: low memory"] ∧
    LogEffect.defaultHandler "app" G_LOG_LEVEL_ERROR "low memory" ∉
      log_handler none "app" G_LOG_LEVEL_ERROR "low memory" := by
  exact ⟨rfl, by decide⟩

/-- C1 amended: for a log event carrying the fatal flag or the ERROR bit, no
matter what custom handler is installed or what it returns, `log_handler`
raises a scripting-level error formatted exactly
`"<domain>-<SEVERITY> **: <message>"`, and the event is NOT forwarded to the
native default log handler (the raise never returns and so preempts the
forwarding step). -/
theorem log_error_raises_and_skips_default (handler : Option LogHandlerFn)
    (domain msg : String) (l : Nat)
    (h : l &&& (G_LOG_FLAG_FATAL ||| G_LOG_LEVEL_ERROR) ≠ 0) :
    log_handler handler domain l msg =
      [.luaError (domain ++ "-" ++ levelName l ++ " **: " ++ msg)] := by
  unfold log_handler
  rcases handler with _ | hf
  · simp [h]
  · rcases hr : hf domain (levelName l) msg <;> simp [h, hr]

/-- C1 witness: the amended claim at the spec's concrete scenario (domain
"app", severity ERROR, message "low memory", no custom handler). -/
theorem log_error_raises_and_skips_default_wit :
    log_handler none "app" G_LOG_LEVEL_ERROR "low memory" =
      [.luaError ("app" ++ "-" ++ levelName G_LOG_LEVEL_ERROR ++ " **: " ++ "low memory")] :=
  log_error_raises_and_skips_default none "app" "low memory" G_LOG_LEVEL_ERROR (by decide)

/-- C4: if the custom scripting-level log handler itself raises a runtime
error while being invoked, the event is escalated to a fatal scripting error
(the formatted `luaL_error` raise) regardless of the event's original
severity bitmask. -/
theorem log_handler_failure_escalates (hf : LogHandlerFn) (domain msg : String)
    (l : Nat) (hfail : hf domain (levelName l) msg = .errrun) :
    log_handler (some hf) domain l msg =
      [.luaError (domain ++ "-" ++ levelName l ++ " **: " ++ msg)] := by
  unfold log_handler
  simp [hfail]

/-- C4 witness: a handler that always raises escalates a WARNING-severity
event (whose bitmask alone would not raise) to the fatal scripting error. -/
theorem log_handler_failure_escalates_wit :
    log_handler (some (fun _ _ _ => .errrun)) "dom" G_LOG_LEVEL_WARNING "m" =
      [.luaError ("dom" ++ "-" ++ levelName G_LOG_LEVEL_WARNING ++ " **: " ++ "m")] :=
  log_handler_failure_escalates (fun _ _ _ => .errrun) "dom" "m" G_LOG_LEVEL_WARNING rfl

/-- C6 counterexample: the option array handed to `luaL_checkoption` is the
whole `log_levels` table, whose seventh entry is the sentinel "???" — so the
level string "???" is accepted (yielding bitmask `1 << 8 = 256`) instead of
failing with a usage error, refuting the claim that every level string
outside the six severities fails. -/
theorem glib_log_sentinel_accepted :
    lgi_glib_log (.vstr "app") (.vstr "???") (.vstr "oops") = .ok ("app", 256, "oops") := by
  rfl

/-- C6 amended: the scripting-callable log entry point accepts exactly the
seven strings of the `log_levels` table — the six severities plus the
sentinel "???" — mapping entry `i` to bitmask `1 << (i + 2)`; a nil (omitted)
level defaults to DEBUG (bitmask 128); every string outside the table fails
with a usage error. -/
theorem glib_log_level_validation (d m : String) :
    lgi_glib_log (.vstr d) .vnil (.vstr m) = .ok (d, 128, m) ∧
    lgi_glib_log (.vstr d) (.vstr "ERROR") (.vstr m) = .ok (d, 4, m) ∧
    lgi_glib_log (.vstr d) (.vstr "CRITICAL") (.vstr m) = .ok (d, 8, m) ∧
    lgi_glib_log (.vstr d) (.vstr "WARNING") (.vstr m) = .ok (d, 16, m) ∧
    lgi_glib_log (.vstr d) (.vstr "MESSAGE") (.vstr m) = .ok (d, 32, m) ∧
    lgi_glib_log (.vstr d) (.vstr "INFO") (.vstr m) = .ok (d, 64, m) ∧
    lgi_glib_log (.vstr d) (.vstr "DEBUG") (.vstr m) = .ok (d, 128, m) ∧
    lgi_glib_log (.vstr d) (.vstr "???") (.vstr m) = .ok (d, 256, m) ∧
    (∀ s, s ∉ log_levels →
      lgi_glib_log (.vstr d) (.vstr s) (.vstr m) = .error ("invalid option " ++ s)) := by
  refine ⟨rfl, rfl, rfl, rfl, rfl, rfl, rfl, rfl, ?_⟩
  intro s hs
  have hnone : optIndex s log_levels = none := optIndex_eq_none s log_levels hs
  simp [lgi_glib_log, luaL_checkstring, luaL_checkoption, hnone]

/-- C6 witness: the default-level case and the rejection of a string outside
the table, at concrete inputs. -/
theorem glib_log_level_validation_wit :
    lgi_glib_log (.vstr "a") .vnil (.vstr "b") = .ok ("a", 128, "b") ∧
    lgi_glib_log (.vstr "a") (.vstr "FOO") (.vstr "b") = .error ("invalid option " ++ "FOO") :=
  ⟨(glib_log_level_validation "a" "b").1,
   (glib_log_level_validation "a" "b").2.2.2.2.2.2.2.2 "FOO" (by decide)⟩

/-- C7: `init` on a metadata type whose tag is the array tag or any other
unsupported (structured/collection) tag fails with the resolution error whose
message carries the numeric tag, and in particular never returns any
successfully initialised box (so it cannot silently produce a VOID box). -/
theorem value_init_unsupported_tag (ti : GITypeInfo)
    (h : ti = .array ∨ ti = .glist ∨ ti = .gslist ∨ ti = .ghash ∨ ti = .gerror) :
    lgi_value_init ti = .error ("value_init: bad ti.tag=" ++ toString ti.tagCode) ∧
    ∀ g : GValue, lgi_value_init ti ≠ .ok g := by
  rcases h with rfl | rfl | rfl | rfl | rfl <;>
    exact ⟨rfl, fun g hg => Except.noConfusion hg⟩

/-- C7 witness: the array tag (numeric value 15) at a concrete input. -/
theorem value_init_unsupported_tag_wit :
    lgi_value_init .array =
      .error ("value_init: bad ti.tag=" ++ toString GITypeInfo.array.tagCode) ∧
    lgi_value_init .array ≠ .ok ⟨.gNone, .dNone⟩ :=
  ⟨(value_init_unsupported_tag .array (Or.inl rfl)).1,
   (value_init_unsupported_tag .array (Or.inl rfl)).2 ⟨.gNone, .dNone⟩⟩

lemma load_nonvalue (s : LuaState) (val : GValue) (v : LuaValue)
    (h : val.gtype.isValue = false) :
    lgi_value_load s val v = .ok (val, 0, s) := by
  simp [lgi_value_load, h]

lemma store_nonvalue (repo : Repo) (s : LuaState) (val : GValue)
    (h : val.gtype.isValue = false) :
    lgi_value_store repo s val = .ok (0, s) := by
  simp [lgi_value_store, h]

/-- C8: for every box whose declared type is not value-bearing, both `load`
and `store` return 0 without raising, leaving the box and the Lua value stack
unchanged. -/
theorem nonvalue_load_store_noop (repo : Repo) (s : LuaState) (val : GValue)
    (v : LuaValue) (h : val.gtype.isValue = false) :
    lgi_value_load s val v = .ok (val, 0, s) ∧
    lgi_value_store repo s val = .ok (0, s) :=
  ⟨load_nonvalue s val v h, store_nonvalue repo s val h⟩

/-- C8 witness: a `G_TYPE_NONE` box at concrete inputs. -/
theorem nonvalue_load_store_noop_wit :
    lgi_value_load [.vnum 3] ⟨.gNone, .dNone⟩ .vnil = .ok (⟨.gNone, .dNone⟩, 0, [.vnum 3]) ∧
    lgi_value_store ⟨fun _ => none⟩ [.vnum 3] ⟨.gNone, .dNone⟩ = .ok (0, [.vnum 3]) :=
  nonvalue_load_store_noop ⟨fun _ => none⟩ [.vnum 3] ⟨.gNone, .dNone⟩ .vnil rfl

/-- The metadata tag of each primitive concrete type. -/
def tagOfPrim : PrimType → GITypeInfo
  | .pBoolean => .boolean
  | .pInt8 => .int8
  | .pUInt8 => .uint8
  | .pInt16 => .int16
  | .pUInt16 => .uint16
  | .pInt32 => .int32
  | .pUInt32 => .uint32
  | .pInt64 => .int64
  | .pUInt64 => .uint64
  | .pFloat => .float
  | .pDouble => .double
  | .pUtf8 => .utf8
  | .pFilename => .filename

/-- The value domain of each primitive concrete type, as Lua values: booleans
for the boolean type, integral numbers within the C type's range for the
integer types, numbers for the float types (for the single-precision type the
domain is conservatively restricted to integers of magnitude at most `2^24`,
all exactly representable), strings for the string types. -/
def inDomain : PrimType → LuaValue → Prop
  | .pBoolean, v => ∃ b, v = .vbool b
  | .pInt8, v => ∃ n : ℤ, v = .vnum (n : ℚ) ∧ -(2 ^ 7) ≤ n ∧ n < 2 ^ 7
  | .pUInt8, v => ∃ n : ℤ, v = .vnum (n : ℚ) ∧ 0 ≤ n ∧ n < 2 ^ 8
  | .pInt16, v => ∃ n : ℤ, v = .vnum (n : ℚ) ∧ -(2 ^ 15) ≤ n ∧ n < 2 ^ 15
  | .pUInt16, v => ∃ n : ℤ, v = .vnum (n : ℚ) ∧ 0 ≤ n ∧ n < 2 ^ 16
  | .pInt32, v => ∃ n : ℤ, v = .vnum (n : ℚ) ∧ -(2 ^ 31) ≤ n ∧ n < 2 ^ 31
  | .pUInt32, v => ∃ n : ℤ, v = .vnum (n : ℚ) ∧ 0 ≤ n ∧ n < 2 ^ 32
  | .pInt64, v => ∃ n : ℤ, v = .vnum (n : ℚ) ∧ -(2 ^ 63) ≤ n ∧ n < 2 ^ 63
  | .pUInt64, v => ∃ n : ℤ, v = .vnum (n : ℚ) ∧ 0 ≤ n ∧ n < 2 ^ 64
  | .pFloat, v => ∃ n : ℤ, v = .vnum (n : ℚ) ∧ -(2 ^ 24) ≤ n ∧ n ≤ 2 ^ 24
  | .pDouble, v => ∃ q : ℚ, v = .vnum q
  | .pUtf8, v => ∃ t, v = .vstr t
  | .pFilename, v => ∃ t, v = .vstr t

/-- The round trip of spec section 8: initialise a box for the type, load the
Lua value into it, store it back onto the stack. -/
def roundTrip (repo : Repo) (p : PrimType) (s : LuaState) (v : LuaValue) :
    Except String (Nat × LuaState) :=
  match lgi_value_init (tagOfPrim p) with
  | .error e => .error e
  | .ok box0 =>
    match lgi_value_load s box0 v with
    | .error e => .error e
    | .ok (box1, _, s1) => lgi_value_store repo s1 box1

lemma ratTrunc_intCast (n : ℤ) : ratTrunc (n : ℚ) = n := by
  unfold ratTrunc
  split
  · exact Int.ceil_intCast n
  · exact Int.floor_intCast n

lemma wrapS_eq (w : Nat) (n : ℤ) (hw : 1 ≤ w) (h1 : -(2 ^ (w - 1)) ≤ n)
    (h2 : n < 2 ^ (w - 1)) : wrapS w n = n := by
  unfold wrapS
  have hsplit : (2 : ℤ) ^ w = 2 ^ (w - 1) * 2 := by
    conv_lhs => rw [show w = (w - 1) + 1 by omega]
    rw [pow_succ]
  set k : ℤ := 2 ^ (w - 1) with hk
  have hkpos : 0 < k := by positivity
  rw [hsplit, Int.emod_eq_of_lt (by omega) (by omega)]
  omega

lemma wrapU_eq (w : Nat) (n : ℤ) (h1 : 0 ≤ n) (h2 : n < 2 ^ w) : wrapU w n = n :=
  Int.emod_eq_of_lt h1 h2

/-- C2: for every supported primitive concrete type and every Lua value in
the type's domain, initialising a box for the type, loading the value, and
storing it back produces exactly one Lua value equal to the original, on top
of an otherwise unchanged stack. -/
theorem primitive_round_trip (repo : Repo) (p : PrimType) (s : LuaState)
    (v : LuaValue) (hd : inDomain p v) :
    roundTrip repo p s v = .ok (1, v :: s) := by
  cases p
  case pBoolean => obtain ⟨b, rfl⟩ := hd; rfl
  case pInt8 =>
    obtain ⟨n, rfl, h1, h2⟩ := hd
    simp [roundTrip, lgi_value_init, tagOfPrim, tagPrim, zeroData, lgi_value_load,
      GType.isValue, primCheck, luaL_checkinteger, ratTrunc_intCast, Except.map,
      wrapS_eq 8 n (by norm_num) h1 h2, lgi_value_store, primPush]
  case pUInt8 =>
    obtain ⟨n, rfl, h1, h2⟩ := hd
    simp [roundTrip, lgi_value_init, tagOfPrim, tagPrim, zeroData, lgi_value_load,
      GType.isValue, primCheck, luaL_checkinteger, ratTrunc_intCast, Except.map,
      wrapU_eq 8 n h1 h2, lgi_value_store, primPush]
  case pInt16 =>
    obtain ⟨n, rfl, h1, h2⟩ := hd
    simp [roundTrip, lgi_value_init, tagOfPrim, tagPrim, zeroData, lgi_value_load,
      GType.isValue, primCheck, luaL_checkinteger, ratTrunc_intCast, Except.map,
      wrapS_eq 16 n (by norm_num) h1 h2, lgi_value_store, primPush]
  case pUInt16 =>
    obtain ⟨n, rfl, h1, h2⟩ := hd
    simp [roundTrip, lgi_value_init, tagOfPrim, tagPrim, zeroData, lgi_value_load,
      GType.isValue, primCheck, luaL_checkinteger, ratTrunc_intCast, Except.map,
      wrapU_eq 16 n h1 h2, lgi_value_store, primPush]
  case pInt32 =>
    obtain ⟨n, rfl, h1, h2⟩ := hd
    simp [roundTrip, lgi_value_init, tagOfPrim, tagPrim, zeroData, lgi_value_load,
      GType.isValue, primCheck, luaL_checkinteger, ratTrunc_intCast, Except.map,
      wrapS_eq 32 n (by norm_num) h1 h2, lgi_value_store, primPush]
  case pUInt32 =>
    obtain ⟨n, rfl, h1, h2⟩ := hd
    simp [roundTrip, lgi_value_init, tagOfPrim, tagPrim, zeroData, lgi_value_load,
      GType.isValue, primCheck, luaL_checkinteger, ratTrunc_intCast, Except.map,
      wrapU_eq 32 n h1 h2, lgi_value_store, primPush]
  case pInt64 =>
    obtain ⟨n, rfl, h1, h2⟩ := hd
    simp [roundTrip, lgi_value_init, tagOfPrim, tagPrim, zeroData, lgi_value_load,
      GType.isValue, primCheck, luaL_checkinteger, ratTrunc_intCast, Except.map,
      wrapS_eq 64 n (by norm_num) h1 h2, lgi_value_store, primPush]
  case pUInt64 =>
    obtain ⟨n, rfl, h1, h2⟩ := hd
    simp [roundTrip, lgi_value_init, tagOfPrim, tagPrim, zeroData, lgi_value_load,
      GType.isValue, primCheck, luaL_checkinteger, ratTrunc_intCast, Except.map,
      wrapU_eq 64 n h1 h2, lgi_value_store, primPush]
  case pFloat => obtain ⟨n, rfl, h1, h2⟩ := hd; rfl
  case pDouble => obtain ⟨q, rfl⟩ := hd; rfl
  case pUtf8 => obtain ⟨t, rfl⟩ := hd; rfl
  case pFilename => obtain ⟨t, rfl⟩ := hd; rfl

/-- C2 witness: the int8 type at value 5 and the string type at "hi". -/
theorem primitive_round_trip_wit :
    roundTrip ⟨fun _ => none⟩ .pInt8 [] (.vnum ((5 : ℤ) : ℚ)) =
      .ok (1, [.vnum ((5 : ℤ) : ℚ)]) ∧
    roundTrip ⟨fun _ => none⟩ .pUtf8 [] (.vstr "hi") = .ok (1, [.vstr "hi"]) :=
  ⟨primitive_round_trip ⟨fun _ => none⟩ .pInt8 [] (.vnum ((5 : ℤ) : ℚ))
     ⟨5, rfl, by norm_num, by norm_num⟩,
   primitive_round_trip ⟨fun _ => none⟩ .pUtf8 [] (.vstr "hi") ⟨"hi", rfl⟩⟩

/-- C9: the closure constructor never returns NULL — the `return NULL` branch
after the type check is dead because `luaL_typerror` raises and does not
return — and for every valid target kind (function, table, userdata) it
returns a non-null closure pointer. -/
theorem gclosure_create_not_null (reg : Reg) (thread target : LuaValue) :
    lgi_gclosure_create reg thread target ≠ .ok none ∧
    ((luaTypeOf target = .tfunction ∨ luaTypeOf target = .ttable ∨
        luaTypeOf target = .tuserdata) →
      ∃ c reg2, lgi_gclosure_create reg thread target = .ok (some (c, reg2))) := by
  unfold lgi_gclosure_create
  by_cases hc : luaTypeOf target ≠ .tfunction ∧ luaTypeOf target ≠ .ttable ∧
      luaTypeOf target ≠ .tuserdata
  · rw [if_pos hc]
    constructor
    · simp [luaL_typerror]
    · intro hv
      rcases hv with h | h | h
      · exact absurd h hc.1
      · exact absurd h hc.2.1
      · exact absurd h hc.2.2
  · rw [if_neg hc]
    exact ⟨by simp, fun _ => ⟨_, _, rfl⟩⟩

/-- C9 witness: a function target yields the concrete closure with both
references pinned, the marshaller and notifier installed, and the floating
reference already converted into the single strong one. -/
theorem gclosure_create_not_null_wit :
    lgi_gclosure_create ⟨[]⟩ (.vthread 0) (.vfunction 1) ≠ .ok none ∧
    lgi_gclosure_create ⟨[]⟩ (.vthread 0) (.vfunction 1) =
      .ok (some (⟨0, 1, 1, false, true, true⟩, ⟨[.vthread 0, .vfunction 1]⟩)) :=
  ⟨(gclosure_create_not_null ⟨[]⟩ (.vthread 0) (.vfunction 1)).1, rfl⟩

/-- C3: if the wrapped callable raises during invocation (the `lua_pcall`
fails), the closure's marshal function returns normally with the return box
unmodified, propagating no error to the native caller, and the registry —
which holds the closure's pinned references — is untouched, so the closure is
still invocable afterward. -/
theorem closure_failure_isolation (call : CallSem) (repo : Repo) (reg : Reg)
    (c : LgiClosure) (rv : GValue) (ps : List GValue) (n : Nat) (s : LuaState)
    (e : String)
    (hpush : pushParams repo [] ps = .ok (n, s))
    (hcall : call (reg.get c.target_ref) ((s.take n).reverse) = .error e) :
    lgi_gclosure_marshal call repo reg c rv ps = .ok (rv, reg) := by
  simp only [lgi_gclosure_marshal, hpush, marshalInvoke, hcall]

/-- C3 witness: a callable that always raises, invoked with no parameters,
leaves the return box and registry exactly as they were. -/
theorem closure_failure_isolation_wit :
    lgi_gclosure_marshal (fun _ _ => .error "boom") ⟨fun _ => none⟩
      ⟨[.vfunction 7]⟩ ⟨1, 0, 1, false, true, true⟩
      ⟨.gPrim .pBoolean, .dBool false⟩ [] =
      .ok (⟨.gPrim .pBoolean, .dBool false⟩, ⟨[.vfunction 7]⟩) :=
  closure_failure_isolation (fun _ _ => .error "boom") ⟨fun _ => none⟩
    ⟨[.vfunction 7]⟩ ⟨1, 0, 1, false, true, true⟩
    ⟨.gPrim .pBoolean, .dBool false⟩ [] 0 [] "boom" rfl rfl

/-- The count a parameter box contributes, as `lgi_value_store` reports it. -/
def storeCount (repo : Repo) (p : GValue) : Nat :=
  match lgi_value_store repo [] p with
  | .ok r => r.1
  | .error _ => 0

lemma store_shape (repo : Repo) (s : LuaState) (p : GValue) (n : Nat)
    (s2 : LuaState) (h : lgi_value_store repo s p = .ok (n, s2)) :
    ∃ l : List LuaValue, n = l.length ∧ s2 = l ++ s ∧
      ∀ s0, lgi_value_store repo s0 p = .ok (n, l ++ s0) := by
  rcases hg : p.gtype with _ | pr | id | id | id | id | id
  · refine ⟨[], ?_, ?_, ?_⟩ <;>
      simp_all [lgi_value_store, hg, GType.isValue]
  · refine ⟨[primPush pr p.data], ?_, ?_, ?_⟩ <;>
      simp_all [lgi_value_store, hg, GType.isValue]
  · refine ⟨[.vnum (dataInt p.data : ℚ)], ?_, ?_, ?_⟩ <;>
      simp_all [lgi_value_store, hg, GType.isValue]
  · refine ⟨[.vnum (dataInt p.data : ℚ)], ?_, ?_, ?_⟩ <;>
      simp_all [lgi_value_store, hg, GType.isValue]
  · rcases hf : repo.find id with _ | bi
    · simp_all [lgi_value_store, hg, GType.isValue, hf]
    · refine ⟨[.vuserdata ((dataPtr p.data).getD 0)], ?_, ?_, ?_⟩ <;>
        simp_all [lgi_value_store, hg, GType.isValue, hf]
  · rcases hf : repo.find id with _ | bi
    · simp_all [lgi_value_store, hg, GType.isValue, hf]
    · refine ⟨[.vuserdata ((dataPtr p.data).getD 0)], ?_, ?_, ?_⟩ <;>
        simp_all [lgi_value_store, hg, GType.isValue, hf]
  · simp_all [lgi_value_store, hg, GType.isValue]

lemma pushParams_indep (repo : Repo) :
    ∀ (ps : List GValue) (s : LuaState) (n : Nat) (s2 : LuaState),
      pushParams repo s ps = .ok (n, s2) →
      ∃ l : List LuaValue, n = l.length ∧ s2 = l ++ s ∧
        ∀ s0, pushParams repo s0 ps = .ok (n, l ++ s0) := by
  intro ps
  induction ps with
  | nil =>
    intro s n s2 h
    unfold pushParams at h
    refine ⟨[], ?_, ?_, ?_⟩ <;> simp_all [pushParams]
  | cons p ps ih =>
    intro s n s2 h
    unfold pushParams at h
    rcases hst : lgi_value_store repo s p with e | ⟨n1, s1⟩
    · simp [hst] at h
    · simp only [hst] at h
      rcases hps : pushParams repo s1 ps with e | ⟨n2, s2x⟩
      · simp [hps] at h
      · simp only [hps, Except.ok.injEq, Prod.mk.injEq] at h
        obtain ⟨hn, hs⟩ := h
        obtain ⟨l1, hl1len, hl1s, hl1all⟩ := store_shape repo s p n1 s1 hst
        obtain ⟨l2, hl2len, hl2s, hl2all⟩ := ih s1 n2 s2x hps
        refine ⟨l2 ++ l1, ?_, ?_, ?_⟩
        · simp [← hn, hl1len, hl2len, Nat.add_comm]
        · rw [← hs, hl2s, hl1s, List.append_assoc]
        · intro s0
          simp only [pushParams, hl1all s0, hl2all (l1 ++ s0), ← hn,
            List.append_assoc]

lemma pushParams_sum (repo : Repo) :
    ∀ (ps : List GValue) (s : LuaState) (n : Nat) (s2 : LuaState),
      pushParams repo s ps = .ok (n, s2) →
      n = (ps.map (storeCount repo)).sum := by
  intro ps
  induction ps with
  | nil =>
    intro s n s2 h
    unfold pushParams at h
    simp_all
  | cons p ps ih =>
    intro s n s2 h
    unfold pushParams at h
    rcases hst : lgi_value_store repo s p with e | ⟨n1, s1⟩
    · simp [hst] at h
    · simp only [hst] at h
      rcases hps : pushParams repo s1 ps with e | ⟨n2, s2x⟩
      · simp [hps] at h
      · simp only [hps, Except.ok.injEq, Prod.mk.injEq] at h
        obtain ⟨l1, hl1len, hl1s, hl1all⟩ := store_shape repo s p n1 s1 hst
        have hcount : storeCount repo p = n1 := by
          unfold storeCount
          rw [hl1all []]
        simp [← h.1, hcount, ih s1 n2 s2x hps]

lemma pushParams_append (repo : Repo) :
    ∀ (xs ys : List GValue) (s : LuaState),
      pushParams repo s (xs ++ ys) =
        match pushParams repo s xs with
        | .error e => .error e
        | .ok (n1, s1) =>
          match pushParams repo s1 ys with
          | .error e => .error e
          | .ok (n2, s2) => .ok (n1 + n2, s2) := by
  intro xs
  induction xs with
  | nil =>
    intro ys s
    simp only [List.nil_append, pushParams]
    rcases pushParams repo s ys with e | r
    · rfl
    · obtain ⟨n2, s2⟩ := r; simp
  | cons x xs ih =>
    intro ys s
    simp only [List.cons_append]
    rcases hst : lgi_value_store repo s x with e | ⟨n1, s1⟩
    · simp only [pushParams, hst]
    · simp only [pushParams, hst]
      rw [ih ys s1]
      rcases hxs : pushParams repo s1 xs with e | ⟨n2, s2⟩
      · simp only [hxs]
      · simp only [hxs]
        rcases hys : pushParams repo s2 ys with e | ⟨n3, s3⟩
        · simp only [hys]
        · simp only [hys, Nat.add_assoc]

/-- C10: during closure invocation the argument count handed to the wrapped
callable equals the sum of the `store` return values over the parameter boxes
in order (and equals the number of pushed values, which the marshal passes as
the arguments); a parameter box whose declared type is not value-bearing
contributes zero values — it is silently dropped, and the values of the
following parameters shift into its position rather than any error being
raised. -/
theorem closure_arg_count_sum (repo : Repo) (ps : List GValue) (n : Nat)
    (s : LuaState) (h : pushParams repo [] ps = .ok (n, s)) :
    n = (ps.map (storeCount repo)).sum ∧
    n = s.length ∧
    (∀ call reg c rv, lgi_gclosure_marshal call repo reg c rv ps =
      marshalInvoke call reg c rv s.reverse) ∧
    (∀ p : GValue, p.gtype.isValue = false → storeCount repo p = 0) ∧
    (∀ xs q ys n1 s1 n2 s2, ps = xs ++ q :: ys → q.gtype.isValue = false →
      pushParams repo [] xs = .ok (n1, s1) → pushParams repo [] ys = .ok (n2, s2) →
      n = n1 + n2 ∧ s.reverse = s1.reverse ++ s2.reverse) := by
  obtain ⟨l, hlen, hls, hall⟩ := pushParams_indep repo ps [] n s h
  have hslen : n = s.length := by
    rw [hls, List.append_nil, hlen]
  refine ⟨pushParams_sum repo ps [] n s h, hslen, ?_, ?_, ?_⟩
  · intro call reg c rv
    simp only [lgi_gclosure_marshal, h]
    rw [hslen, List.take_length]
  · intro p hp
    unfold storeCount
    rw [store_nonvalue repo [] p hp]
  · intro xs q ys n1 s1 n2 s2 hsplit hq h1 h2
    rw [hsplit, pushParams_append repo xs (q :: ys) []] at h
    simp only [h1] at h
    have hq0 : pushParams repo s1 (q :: ys) =
        match pushParams repo s1 ys with
        | .error e => .error e
        | .ok (m, s3) => .ok (0 + m, s3) := by
      simp only [pushParams, store_nonvalue repo s1 q hq]
    obtain ⟨l2, hl2len, hl2s, hl2all⟩ := pushParams_indep repo ys [] n2 s2 h2
    rw [hq0] at h
    simp only [hl2all s1, Except.ok.injEq, Prod.mk.injEq] at h
    constructor
    · omega
    · rw [← h.2, List.reverse_append]
      simp [hl2s]

/-- C10 witness: a boolean box, a non-value-bearing box and a string box
marshal into exactly two arguments — the middle box is dropped and the string
value shifts into the second position. -/
theorem closure_arg_count_sum_wit :
    (2 : Nat) = ([⟨.gPrim .pBoolean, .dBool true⟩, ⟨.gNone, .dNone⟩,
        ⟨.gPrim .pUtf8, .dStr "x"⟩].map (storeCount ⟨fun _ => none⟩)).sum ∧
    (2 : Nat) = [LuaValue.vstr "x", LuaValue.vbool true].length ∧
    ([LuaValue.vstr "x", LuaValue.vbool true].reverse =
      [LuaValue.vbool true].reverse ++ [LuaValue.vstr "x"].reverse) :=
  ⟨(closure_arg_count_sum ⟨fun _ => none⟩
      [⟨.gPrim .pBoolean, .dBool true⟩, ⟨.gNone, .dNone⟩, ⟨.gPrim .pUtf8, .dStr "x"⟩]
      2 [.vstr "x", .vbool true] rfl).1,
   (closure_arg_count_sum ⟨fun _ => none⟩
      [⟨.gPrim .pBoolean, .dBool true⟩, ⟨.gNone, .dNone⟩, ⟨.gPrim .pUtf8, .dStr "x"⟩]
      2 [.vstr "x", .vbool true] rfl).2.1,
   ((closure_arg_count_sum ⟨fun _ => none⟩
      [⟨.gPrim .pBoolean, .dBool true⟩, ⟨.gNone, .dNone⟩, ⟨.gPrim .pUtf8, .dStr "x"⟩]
      2 [.vstr "x", .vbool true] rfl).2.2.2.2
      [⟨.gPrim .pBoolean, .dBool true⟩] ⟨.gNone, .dNone⟩ [⟨.gPrim .pUtf8, .dStr "x"⟩]
      1 [.vbool true] 1 [.vstr "x"] rfl rfl rfl rfl).2⟩

end Lgi
